import Mathlib

/-!
Verification of the revenue-engine webhook service.

This file gives a shallow embedding of the reconciliation logic of the
repository (src/api/app.py and src/automations/lead_intake.py) and proves
theorems about it.  Conventions of the embedding:

* The relational store is a `DB` record of lists; ORM writes are explicit
  state updates.  Machine time is a `Nat` parameter `now`; fresh row ids are
  a `Nat` parameter `nextId`.
* Python dictionaries arriving from the gateways are modelled as structures
  whose `Option` fields encode absent keys; `Option.getD` embeds
  `dict.get(key, default)`.
* Fallible external calls (the payment-gateway SDK) are `Except String`
  oracle parameters; fallible ORM creates return `Except String DB`.
* Monetary amounts are `ℚ` (the source uses exact `Decimal` arithmetic).
* String scanning functions are written over `List Char` so that all
  definitions reduce in the kernel.
-/

namespace RevenueEngine

/-! ### Characters and the input sanitizer (src/api/app.py lines 79-88) -/

/-- The less-than sign. -/
def ltChar : Char := Char.ofNat 60

/-- The greater-than sign. -/
def gtChar : Char := Char.ofNat 62

/-- The double-quote character. -/
def quotChar : Char := Char.ofNat 34

/-- The single-quote character. -/
def aposChar : Char := Char.ofNat 39

/-- A character the sanitizer is meant to remove. -/
def dangerous (c : Char) : Bool :=
  c == ltChar || c == gtChar || c == quotChar || c == aposChar

/-- Python `str.replace(old, new)` for a one-character `old` replaces each
occurrence independently, which is exactly a per-character substitution. -/
def replaceChar (old : Char) (repl : List Char) (s : List Char) : List Char :=
  s.flatMap (fun a => if a == old then repl else [a])

/-- The four chained single-character replacements performed by
`sanitize_input` on a string (src/api/app.py line 83). -/
def sanitize_chars (s : List Char) : List Char :=
  replaceChar aposChar ("&#x27;").data
    (replaceChar quotChar ("&quot;").data
      (replaceChar gtChar ("&gt;").data
        (replaceChar ltChar ("&lt;").data s)))

/-- String-level form of the sanitizer on `str` inputs. -/
def sanitize_string (s : String) : String :=
  String.mk (sanitize_chars s.data)

mutual
/-- A Python value as handled by `sanitize_input`: a string, a dict with
string keys, a list, or any other (opaque) value. -/
inductive PyVal where
  | str : String → PyVal
  | dict : PyDict → PyVal
  | list : PyList → PyVal
  | other : Int → PyVal

/-- The entries of a Python dict with string keys. -/
inductive PyDict where
  | nil : PyDict
  | cons : String → PyVal → PyDict → PyDict

/-- The elements of a Python list. -/
inductive PyList where
  | nil : PyList
  | cons : PyVal → PyList → PyList
end

mutual
/-- Embedding of `sanitize_input` (src/api/app.py lines 79-88): strings are
rewritten, dict values and list elements are sanitized recursively, dict
keys and other values are returned untouched. -/
def sanitize_input : PyVal → PyVal
  | .str s => .str (sanitize_string s)
  | .dict d => .dict (sanitize_input_dict d)
  | .list l => .list (sanitize_input_list l)
  | .other n => .other n

/-- Dict case of `sanitize_input`: `{k: sanitize_input(v) for k, v in data.items()}`. -/
def sanitize_input_dict : PyDict → PyDict
  | .nil => .nil
  | .cons k v d => .cons k (sanitize_input v) (sanitize_input_dict d)

/-- List case of `sanitize_input`. -/
def sanitize_input_list : PyList → PyList
  | .nil => .nil
  | .cons v l => .cons (sanitize_input v) (sanitize_input_list l)
end

mutual
/-- Every string occurring in a value: dict keys, string leaves everywhere. -/
def allStrings : PyVal → List String
  | .str s => [s]
  | .dict d => allStringsDict d
  | .list l => allStringsList l
  | .other _ => []

/-- Strings of a dict, keys included. -/
def allStringsDict : PyDict → List String
  | .nil => []
  | .cons k v d => k :: (allStrings v ++ allStringsDict d)

/-- Strings of a list. -/
def allStringsList : PyList → List String
  | .nil => []
  | .cons v l => allStrings v ++ allStringsList l
end

mutual
/-- The strings of a value that `sanitize_input` actually rewrites: string
leaves reached through dict values and list elements, dict keys excluded. -/
def valueStrings : PyVal → List String
  | .str s => [s]
  | .dict d => valueStringsDict d
  | .list l => valueStringsList l
  | .other _ => []

/-- Value strings of a dict (keys excluded). -/
def valueStringsDict : PyDict → List String
  | .nil => []
  | .cons _ v d => valueStrings v ++ valueStringsDict d

/-- Value strings of a list. -/
def valueStringsList : PyList → List String
  | .nil => []
  | .cons v l => valueStrings v ++ valueStringsList l
end

/-! ### Data model (spec section 3; Prisma models referenced from src/api/app.py) -/

/-- An Order row. -/
structure Order where
  id : Nat
  gateway : String
  gatewayTransactionId : String
  status : String
  amountGbp : ℚ
  buyerEmail : Option String
  buyerName : Option String
  sku : String
  fulfilled : Bool
  fulfilledAt : Option Nat
deriving Repr, DecidableEq

/-- A Subscription row. -/
structure Subscription where
  gateway : String
  gatewaySubscriptionId : String
  customerEmail : Option String
  sku : String
  status : String
  currentPeriodStart : Option Nat
  currentPeriodEnd : Option Nat
  cancelAtPeriodEnd : Bool
  cancelledAt : Option Nat
deriving Repr, DecidableEq

/-- A Lead row. -/
structure Lead where
  email : String
  name : Option String
  source : Option String
  tags : List String
  utmSource : Option String
  utmCampaign : Option String
  utmMedium : Option String
  utmTerm : Option String
  utmContent : Option String
deriving Repr, DecidableEq

/-- An AutomationLog row; only the fields the claims mention are kept
(trigger/execution payloads and the timing fields are opaque to every
property proved here). -/
structure AutomationLog where
  automationId : String
  automationName : String
  status : String
  errorMessage : Option String
deriving Repr, DecidableEq

/-- A Product row (the fields read by the checkout handlers). -/
structure Product where
  sku : String
  fulfilmentWebhook : Option String
deriving Repr, DecidableEq

/-- The relational store. -/
structure DB where
  orders : List Order
  subscriptions : List Subscription
  leads : List Lead
  products : List Product
  logs : List AutomationLog
deriving Repr, DecidableEq

/-! ### Environment and signature verification (src/api/app.py lines 152-184) -/

/-- The environment variables the validators read. -/
structure Env where
  stripeWebhookSecret : Option String
  environment : Option String
deriving Repr, DecidableEq

/-- Embedding of `verify_stripe_signature`.  `constructEventOk` is the
outcome of the external `stripe.Webhook.construct_event` call: the source
returns `True` when it succeeds and `False` on any exception it raises.
With no secret configured the source returns the boolean value of
`os.getenv(ENVIRONMENT) == development`. -/
def verify_stripe_signature (env : Env) (constructEventOk : Bool) : Bool :=
  match env.stripeWebhookSecret with
  | none => env.environment == some ("development")
  | some _ => constructEventOk

/-- Embedding of `verify_paypal_signature`: a stub that rejects in
production and accepts everywhere else, consulting no secret at all. -/
def verify_paypal_signature (env : Env) : Bool :=
  if env.environment == some ("production") then false else true

/-! ### Python truthiness helpers -/

/-- Python truthiness of an optional string (`None` and the empty string
are falsy). -/
def truthy (s : Option String) : Bool :=
  match s with
  | some w => !(w == "")
  | none => false

/-- Python `a or b` on two optional strings. -/
def orFalsy (a b : Option String) : Option String :=
  match a with
  | some s => if s == "" then b else some s
  | none => b

/-! ### Automation logger (src/api/app.py lines 186-211, src/automations/lead_intake.py lines 30-47) -/

/-- The webhook-path logger used inside the reconciliation handlers,
modelled with the store always reachable: it appends one row. -/
def log_automation (db : DB) (automationId automationName status : String)
    (errorMessage : Option String) : DB :=
  { db with logs := db.logs ++
      [{ automationId := automationId, automationName := automationName,
         status := status, errorMessage := errorMessage }] }

/-- The underlying `db.automationlog.create` write with its own failure
made explicit (`writeOk = false` models the ORM call raising). -/
def automationlog_create (db : DB) (writeOk : Bool) (entry : AutomationLog) :
    DB × Except String Unit :=
  if writeOk then ({ db with logs := db.logs ++ [entry] }, Except.ok ())
  else (db, Except.error ("automation log write failed"))

/-- The `log_automation` of src/api/app.py over the fallible write: the
source has no try/except around the create, so the result of the write is
returned to the caller unchanged. -/
def log_automation_webhook (db : DB) (writeOk : Bool) (entry : AutomationLog) :
    DB × Except String Unit :=
  automationlog_create db writeOk entry

/-- The `log_automation` of src/automations/lead_intake.py: the create is
wrapped in try/except that prints and continues, so only the resulting
state is kept and no error ever escapes. -/
def log_automation_script (db : DB) (writeOk : Bool) (entry : AutomationLog) : DB :=
  (automationlog_create db writeOk entry).1

/-! ### ORM primitives -/

/-- Embedding of `db.order.create`.  Modelled from the spec: the Prisma
schema (not under src/) declares at most one Order per
(gateway, gateway_transaction_id), so a duplicate create raises a
uniqueness violation (spec sections 3 and 4.3). -/
def order_create (db : DB) (o : Order) : Except String DB :=
  if db.orders.any (fun p => p.gateway == o.gateway &&
      p.gatewayTransactionId == o.gatewayTransactionId)
  then Except.error ("Unique constraint failed on Order gateway transaction id")
  else Except.ok { db with orders := db.orders ++ [o] }

/-- Embedding of `db.order.update(where = id)`.  Modelled from the spec:
the Prisma python client silently does nothing when no row matches
(spec section 4.3 calls this out as a known gap), so the update is a map
that touches exactly the matching rows. -/
def order_update (db : DB) (id : Nat) (f : Order → Order) : DB :=
  { db with orders := db.orders.map (fun o => if o.id == id then f o else o) }

/-- Embedding of `db.subscription.create` with the uniqueness constraint on
(gateway, gateway_subscription_id).  Modelled from the spec as for
`order_create`. -/
def subscription_create (db : DB) (s : Subscription) : Except String DB :=
  if db.subscriptions.any (fun p => p.gateway == s.gateway &&
      p.gatewaySubscriptionId == s.gatewaySubscriptionId)
  then Except.error ("Unique constraint failed on Subscription gateway subscription id")
  else Except.ok { db with subscriptions := db.subscriptions ++ [s] }

/-- Embedding of `db.subscription.update(where = gatewaySubscriptionId)`,
silently a no-op when nothing matches, as for `order_update`. -/
def subscription_update (db : DB) (subId : String) (f : Subscription → Subscription) : DB :=
  { db with subscriptions :=
      db.subscriptions.map (fun s => if s.gatewaySubscriptionId == subId then f s else s) }

/-! ### Fulfillment dispatcher (src/api/app.py lines 664-749) -/

/-- Python `str.startswith` at the character-list level. -/
def str_startswith (s p : String) : Bool :=
  p.data.isPrefixOf s.data

/-- Embedding of `create_notion_workspace` (src/api/app.py lines 220-224):
a stub that logs and returns a placeholder page id. -/
def create_notion_workspace (_customer_email _product_sku : String) : String :=
  "notion-page-id-placeholder"

/-- Embedding of `fulfill_copykit`: create the workspace, mark the order
fulfilled with a timestamp, record a completed automation log. -/
def fulfill_copykit (db : DB) (now : Nat) (order : Order) (_product : Option Product) : DB :=
  let _notionPageId :=
    create_notion_workspace ((order.buyerEmail).getD ("")) order.sku
  let db1 := order_update db order.id
    (fun o => { o with fulfilled := true, fulfilledAt := some now })
  log_automation db1 ("A4-copykit-fulfilment") ("CopyKit Fulfillment") ("completed") none

/-- Embedding of `fulfill_briefing`: mark the order fulfilled with a
timestamp, record a completed automation log. -/
def fulfill_briefing (db : DB) (now : Nat) (order : Order) (_product : Option Product) : DB :=
  let db1 := order_update db order.id
    (fun o => { o with fulfilled := true, fulfilledAt := some now })
  log_automation db1 ("A4-copykit-fulfilment") ("Briefing Fulfillment") ("completed") none

/-- Embedding of `trigger_fulfillment` (src/api/app.py lines 664-673):
dispatch on the SKU prefix; unknown prefixes only log a warning. -/
def trigger_fulfillment (db : DB) (now : Nat) (order : Order) (product : Option Product) : DB :=
  if str_startswith order.sku ("COPYKIT") then fulfill_copykit db now order product
  else if str_startswith order.sku ("DAILYBRIEF") then fulfill_briefing db now order product
  else db

/-! ### Stripe events and handlers (src/api/app.py lines 283-490) -/

/-- The fields of a `checkout.session.completed` object that the handler
reads.  `Option` fields model absent dictionary keys. -/
structure StripeSession where
  id : String
  payment_intent : String
  amount_total : Int
  customer_email : Option String
  customer_details_email : Option String
  customer_details_name : Option String
  metadata_sku : Option String
deriving Repr, DecidableEq

/-- The fields of a Stripe subscription object that the handlers read. -/
structure StripeSubscriptionObj where
  id : String
  customer : String
  status : String
  current_period_start : Nat
  current_period_end : Nat
  cancel_at_period_end : Bool
  metadata_sku : Option String
deriving Repr, DecidableEq

/-- The fields of a Stripe charge object that the handlers read. -/
structure StripeCharge where
  payment_intent : String
deriving Repr, DecidableEq

/-- A decoded Stripe event envelope.  The payload is a dynamic dictionary
in the source; here the one `data.object` dictionary is exposed through
the three typed views the individual handlers project out of it. -/
structure StripeEvent where
  type : String
  session : StripeSession
  subscription : StripeSubscriptionObj
  charge : StripeCharge
deriving Repr, DecidableEq

/-- Results of the external SDK calls made during event handling:
`stripe.checkout.Session.list_line_items` (result unused by the source but
its exceptions propagate) and `stripe.Customer.retrieve` (yielding the
customer email). -/
structure Ext where
  listLineItemsOk : Except String Unit
  retrieveCustomerEmail : Except String (Option String)

/-- Embedding of `handle_stripe_checkout_completed` (src/api/app.py lines
330-390).  Returns the final store and either the created Order or the
re-raised error; on error the failed automation log has been appended. -/
def handle_stripe_checkout_completed (db : DB) (now nextId : Nat) (ext : Ext)
    (session : StripeSession) : DB × Except String Order :=
  let customer_email := orFalsy session.customer_email session.customer_details_email
  let amount_total : ℚ := (session.amount_total : ℚ) / 100
  match ext.listLineItemsOk with
  | Except.error e =>
      (log_automation db ("A2-checkout-webhooks") ("Stripe Checkout Completed")
        ("failed") (some e), Except.error e)
  | Except.ok _ =>
    let sku := session.metadata_sku.getD ("UNKNOWN")
    let order : Order :=
      { id := nextId, gateway := "stripe",
        gatewayTransactionId := session.payment_intent, status := "paid",
        amountGbp := amount_total, buyerEmail := customer_email,
        buyerName := session.customer_details_name, sku := sku,
        fulfilled := false, fulfilledAt := none }
    match order_create db order with
    | Except.error e =>
        (log_automation db ("A2-checkout-webhooks") ("Stripe Checkout Completed")
          ("failed") (some e), Except.error e)
    | Except.ok db1 =>
      let product := db1.products.find? (fun p => p.sku == sku)
      let db2 :=
        match product with
        | some p => if truthy p.fulfilmentWebhook then trigger_fulfillment db1 now order (some p) else db1
        | none => db1
      let db3 := log_automation db2 ("A2-checkout-webhooks") ("Stripe Checkout Completed")
        ("completed") none
      (db3, Except.ok order)

/-- Embedding of `handle_stripe_subscription_created` (src/api/app.py lines
392-417): retrieve the customer, create the Subscription row; errors are
logged to the application logger only and re-raised. -/
def handle_stripe_subscription_created (db : DB) (ext : Ext)
    (sub : StripeSubscriptionObj) : DB × Except String Unit :=
  match ext.retrieveCustomerEmail with
  | Except.error e => (db, Except.error e)
  | Except.ok email =>
    let sku := sub.metadata_sku.getD ("UNKNOWN")
    match subscription_create db
      { gateway := "stripe", gatewaySubscriptionId := sub.id,
        customerEmail := email, sku := sku, status := sub.status,
        currentPeriodStart := some sub.current_period_start,
        currentPeriodEnd := some sub.current_period_end,
        cancelAtPeriodEnd := sub.cancel_at_period_end, cancelledAt := none } with
    | Except.error e => (db, Except.error e)
    | Except.ok db1 => (db1, Except.ok ())

/-- Embedding of `handle_stripe_subscription_updated` (src/api/app.py lines
419-436): refresh status, period bounds and the cancel flag in place. -/
def handle_stripe_subscription_updated (db : DB) (sub : StripeSubscriptionObj) : DB :=
  subscription_update db sub.id
    (fun s =>
      { s with
        status := sub.status,
        currentPeriodStart := some sub.current_period_start,
        currentPeriodEnd := some sub.current_period_end,
        cancelAtPeriodEnd := sub.cancel_at_period_end })

/-- Embedding of `handle_stripe_subscription_deleted` (src/api/app.py lines
438-453). -/
def handle_stripe_subscription_deleted (db : DB) (now : Nat)
    (sub : StripeSubscriptionObj) : DB :=
  subscription_update db sub.id
    (fun s => { s with status := "cancelled", cancelledAt := some now })

/-- Embedding of `handle_stripe_refund` (src/api/app.py lines 455-472):
find the first Order with the payment intent and set its status. -/
def handle_stripe_refund (db : DB) (charge : StripeCharge) : DB :=
  match db.orders.find? (fun o => o.gatewayTransactionId == charge.payment_intent) with
  | some order => order_update db order.id (fun o => { o with status := "refunded" })
  | none => db

/-- Embedding of `handle_stripe_dispute` (src/api/app.py lines 474-490). -/
def handle_stripe_dispute (db : DB) (charge : StripeCharge) : DB :=
  match db.orders.find? (fun o => o.gatewayTransactionId == charge.payment_intent) with
  | some order => order_update db order.id (fun o => { o with status := "disputed" })
  | none => db

/-! ### Webhook endpoints (src/api/app.py lines 283-328 and 496-534) -/

/-- The body of a webhook HTTP response. -/
inductive RespBody where
  | received
  | error : String → RespBody
deriving Repr, DecidableEq

/-- A webhook HTTP response. -/
structure Response where
  status : Nat
  body : RespBody
deriving Repr, DecidableEq

/-- The event type strings `stripe_webhook` dispatches on. -/
def stripeHandledTypes : List String :=
  ["checkout.session.completed", "customer.subscription.created",
   "customer.subscription.updated", "customer.subscription.deleted",
   "charge.refunded", "charge.dispute.created"]

/-- An inbound Stripe webhook request after JSON decoding.
`constructEventOk` is the signature-library verdict used when a secret is
configured. -/
structure StripeRequest where
  contentTypeJson : Bool
  constructEventOk : Bool
  event : StripeEvent
deriving Repr, DecidableEq

/-- Embedding of the `stripe_webhook` endpoint: content-type gate,
signature gate, then exact-match dispatch; unmatched types fall through to
a 200 with no handler invoked; handler exceptions become a 500. -/
def stripe_webhook (env : Env) (db : DB) (now nextId : Nat) (ext : Ext)
    (req : StripeRequest) : Response × DB :=
  if !req.contentTypeJson then
    ({ status := 400, body := RespBody.error ("Invalid content type") }, db)
  else if !(verify_stripe_signature env req.constructEventOk) then
    ({ status := 401, body := RespBody.error ("Invalid signature") }, db)
  else
    let ev := req.event
    if ev.type == "checkout.session.completed" then
      match handle_stripe_checkout_completed db now nextId ext ev.session with
      | (db1, Except.ok _) => ({ status := 200, body := RespBody.received }, db1)
      | (db1, Except.error e) => ({ status := 500, body := RespBody.error e }, db1)
    else if ev.type == "customer.subscription.created" then
      match handle_stripe_subscription_created db ext ev.subscription with
      | (db1, Except.ok _) => ({ status := 200, body := RespBody.received }, db1)
      | (db1, Except.error e) => ({ status := 500, body := RespBody.error e }, db1)
    else if ev.type == "customer.subscription.updated" then
      ({ status := 200, body := RespBody.received }, handle_stripe_subscription_updated db ev.subscription)
    else if ev.type == "customer.subscription.deleted" then
      ({ status := 200, body := RespBody.received }, handle_stripe_subscription_deleted db now ev.subscription)
    else if ev.type == "charge.refunded" then
      ({ status := 200, body := RespBody.received }, handle_stripe_refund db ev.charge)
    else if ev.type == "charge.dispute.created" then
      ({ status := 200, body := RespBody.received }, handle_stripe_dispute db ev.charge)
    else
      ({ status := 200, body := RespBody.received }, db)

/-! ### PayPal events and handlers (src/api/app.py lines 496-658) -/

/-- Python `str.strip` (whitespace from both ends) at the character-list
level. -/
def str_strip (s : String) : String :=
  String.mk ((((s.data.dropWhile Char.isWhitespace).reverse.dropWhile Char.isWhitespace).reverse))

/-- The fields of a PayPal webhook resource object that the handlers read;
one dynamic dictionary in the source, exposed through typed fields here. -/
structure PaypalResource where
  id : String
  payer_email : Option String
  payer_given_name : Option String
  payer_surname : Option String
  amount_value : ℚ
  custom_id : Option String
  subscriber_email : Option String
  start_time : Nat
deriving Repr, DecidableEq

/-- A decoded PayPal event envelope. -/
structure PaypalEvent where
  event_type : String
  resource : PaypalResource
deriving Repr, DecidableEq

/-- An inbound PayPal webhook request after JSON decoding. -/
structure PaypalRequest where
  contentTypeJson : Bool
  event : PaypalEvent
deriving Repr, DecidableEq

/-- Embedding of `handle_paypal_payment_completed` (src/api/app.py lines
536-596): the amount is taken verbatim (already in major units), the SKU
comes from `custom_id`. -/
def handle_paypal_payment_completed (db : DB) (now nextId : Nat)
    (payment : PaypalResource) : DB × Except String Order :=
  let customer_email := payment.payer_email
  let customer_name :=
    str_strip ((payment.payer_given_name.getD ("")) ++ " " ++ (payment.payer_surname.getD ("")))
  let amount := payment.amount_value
  let sku := payment.custom_id.getD ("UNKNOWN")
  let order : Order :=
    { id := nextId, gateway := "paypal", gatewayTransactionId := payment.id,
      status := "paid", amountGbp := amount, buyerEmail := customer_email,
      buyerName := some customer_name, sku := sku,
      fulfilled := false, fulfilledAt := none }
  match order_create db order with
  | Except.error e =>
      (log_automation db ("A2-checkout-webhooks") ("PayPal Payment Completed")
        ("failed") (some e), Except.error e)
  | Except.ok db1 =>
    let product := db1.products.find? (fun p => p.sku == sku)
    let db2 :=
      match product with
      | some p => if truthy p.fulfilmentWebhook then trigger_fulfillment db1 now order (some p) else db1
      | none => db1
    let db3 := log_automation db2 ("A2-checkout-webhooks") ("PayPal Payment Completed")
      ("completed") none
    (db3, Except.ok order)

/-- Embedding of `handle_paypal_subscription_created` (src/api/app.py lines
598-622). -/
def handle_paypal_subscription_created (db : DB) (sub : PaypalResource) :
    DB × Except String Unit :=
  let sku := sub.custom_id.getD ("UNKNOWN")
  match subscription_create db
    { gateway := "paypal", gatewaySubscriptionId := sub.id,
      customerEmail := sub.subscriber_email, sku := sku, status := "active",
      currentPeriodStart := some sub.start_time, currentPeriodEnd := none,
      cancelAtPeriodEnd := false, cancelledAt := none } with
  | Except.error e => (db, Except.error e)
  | Except.ok db1 => (db1, Except.ok ())

/-- Embedding of `handle_paypal_subscription_cancelled` (src/api/app.py
lines 624-639). -/
def handle_paypal_subscription_cancelled (db : DB) (now : Nat)
    (sub : PaypalResource) : DB :=
  subscription_update db sub.id
    (fun s => { s with status := "cancelled", cancelledAt := some now })

/-- Embedding of `handle_paypal_refund` (src/api/app.py lines 641-658):
find the first Order with the capture id and set its status. -/
def handle_paypal_refund (db : DB) (payment : PaypalResource) : DB :=
  match db.orders.find? (fun o => o.gatewayTransactionId == payment.id) with
  | some order => order_update db order.id (fun o => { o with status := "refunded" })
  | none => db

/-- The event type strings `paypal_webhook` dispatches on. -/
def paypalHandledTypes : List String :=
  ["PAYMENT.CAPTURE.COMPLETED", "BILLING.SUBSCRIPTION.CREATED",
   "BILLING.SUBSCRIPTION.CANCELLED", "PAYMENT.CAPTURE.REFUNDED"]

/-- Embedding of the `paypal_webhook` endpoint (src/api/app.py lines
496-534). -/
def paypal_webhook (env : Env) (db : DB) (now nextId : Nat)
    (req : PaypalRequest) : Response × DB :=
  if !req.contentTypeJson then
    ({ status := 400, body := RespBody.error ("Invalid content type") }, db)
  else if !(verify_paypal_signature env) then
    ({ status := 401, body := RespBody.error ("Invalid signature") }, db)
  else
    let ev := req.event
    if ev.event_type == "PAYMENT.CAPTURE.COMPLETED" then
      match handle_paypal_payment_completed db now nextId ev.resource with
      | (db1, Except.ok _) => ({ status := 200, body := RespBody.received }, db1)
      | (db1, Except.error e) => ({ status := 500, body := RespBody.error e }, db1)
    else if ev.event_type == "BILLING.SUBSCRIPTION.CREATED" then
      match handle_paypal_subscription_created db ev.resource with
      | (db1, Except.ok _) => ({ status := 200, body := RespBody.received }, db1)
      | (db1, Except.error e) => ({ status := 500, body := RespBody.error e }, db1)
    else if ev.event_type == "BILLING.SUBSCRIPTION.CANCELLED" then
      ({ status := 200, body := RespBody.received }, handle_paypal_subscription_cancelled db now ev.resource)
    else if ev.event_type == "PAYMENT.CAPTURE.REFUNDED" then
      ({ status := 200, body := RespBody.received }, handle_paypal_refund db ev.resource)
    else
      ({ status := 200, body := RespBody.received }, db)

/-! ### Lead intake (src/automations/lead_intake.py lines 49-94 and
src/api/app.py lines 797-848) -/

/-- A lead form submission or `POST /api/leads` body.  `Option` fields
model absent keys; `tags` distinguishes an absent key from an empty
list. -/
structure LeadSubmission where
  email : String
  name : Option String
  source : Option String
  tags : Option (List String)
  utm_source : Option String
  utm_campaign : Option String
  utm_medium : Option String
  utm_term : Option String
  utm_content : Option String
deriving Repr, DecidableEq

/-- Python `dict.get(key, fallback)` where the fallback is another
optional value. -/
def getOr (a b : Option String) : Option String :=
  match a with
  | some x => some x
  | none => b

/-- Embedding of `upsert_lead` (src/automations/lead_intake.py lines
49-94).  On an existing email the row is updated in place with tags
`list(set(existing + submitted))`; Python set order is unspecified, so the
embedding uses `List.dedup` and all theorems read tags up to membership.
On a fresh email a new row is appended. -/
def upsert_lead (db : DB) (ld : LeadSubmission) : DB :=
  match db.leads.find? (fun l => l.email == ld.email) with
  | some existing =>
      { db with leads :=
          db.leads.map (fun l =>
            if l.email == ld.email then
              { l with
                name := getOr ld.name existing.name,
                source := getOr ld.source existing.source,
                tags := (existing.tags ++ ld.tags.getD []).dedup,
                utmSource := getOr ld.utm_source existing.utmSource,
                utmCampaign := getOr ld.utm_campaign existing.utmCampaign,
                utmMedium := getOr ld.utm_medium existing.utmMedium,
                utmTerm := getOr ld.utm_term existing.utmTerm,
                utmContent := getOr ld.utm_content existing.utmContent }
            else l) }
  | none =>
      { db with leads :=
          db.leads ++
            [{ email := ld.email, name := ld.name,
               source := some (ld.source.getD ("Manual")),
               tags := ld.tags.getD [], utmSource := ld.utm_source,
               utmCampaign := ld.utm_campaign, utmMedium := ld.utm_medium,
               utmTerm := ld.utm_term, utmContent := ld.utm_content }] }

/-- Splitting a character list at every occurrence of a separator. -/
def splitOnChar (c : Char) (s : List Char) : List (List Char) :=
  match s with
  | [] => [[]]
  | a :: rest =>
      match splitOnChar c rest with
      | [] => if a == c then [[], []] else [[a]]
      | h :: t => if a == c then [] :: h :: t else (a :: h) :: t

/-- A character allowed in the local part of the email regex of
`validate_email` (src/api/app.py lines 73-77). -/
def isLocalChar (c : Char) : Bool :=
  c.isAlpha || c.isDigit || c == '.' || c == '_' || c == '%' || c == '+' || c == '-'

/-- A character allowed in the domain part of the email regex. -/
def isDomainChar (c : Char) : Bool :=
  c.isAlpha || c.isDigit || c == '.' || c == '-'

/-- Embedding of `validate_email`: a full match of the anchored regex.
The string must be local `@` domain `.` tld with a nonempty local part of
local characters, a nonempty domain part of domain characters, and an
alphabetic tld of length at least two; because the tld runs to the end of
the string, the regex matches exactly when the maximal alphabetic suffix
plays that role and is preceded by a dot. -/
def validate_email (s : String) : Bool :=
  match splitOnChar '@' s.data with
  | [localPart, domain] =>
      let tld := (domain.reverse.takeWhile (fun c => c.isAlpha)).reverse
      let rest := domain.take (domain.length - tld.length)
      !localPart.isEmpty && localPart.all isLocalChar &&
      decide (2 ≤ tld.length) &&
      (match rest.getLast? with
       | some c => (c == '.') && !rest.dropLast.isEmpty && rest.dropLast.all isDomainChar
       | none => false)
  | _ => false

/-- Python `str.lower` at the character-list level. -/
def str_lower (s : String) : String :=
  String.mk (s.data.map Char.toLower)

/-- The sanitizer as `create_lead` applies it to the decoded JSON body,
expressed on the structured view of that body: every string field is
rewritten by `sanitize_string`. -/
def sanitize_submission (ld : LeadSubmission) : LeadSubmission :=
  { email := sanitize_string ld.email,
    name := ld.name.map sanitize_string,
    source := ld.source.map sanitize_string,
    tags := ld.tags.map (fun ts => ts.map sanitize_string),
    utm_source := ld.utm_source.map sanitize_string,
    utm_campaign := ld.utm_campaign.map sanitize_string,
    utm_medium := ld.utm_medium.map sanitize_string,
    utm_term := ld.utm_term.map sanitize_string,
    utm_content := ld.utm_content.map sanitize_string }

/-- The outcome reported by the `POST /api/leads` endpoint. -/
inductive LeadResult where
  | created : Lead → LeadResult
  | alreadyExists : Lead → LeadResult
  | invalidEmail : LeadResult
  | nameTooLong : LeadResult
deriving Repr, DecidableEq

/-- The name-length gate of `create_lead`: a present, truthy name longer
than 255 characters is rejected. -/
def name_too_long (name : Option String) : Bool :=
  match name with
  | some n => !(n == "") && decide (255 < n.length)
  | none => false

/-- Embedding of `create_lead` (src/api/app.py lines 797-848): sanitize,
validate, and if the email is already present return the existing row
unchanged; otherwise append a new row with normalized email. -/
def create_lead (db : DB) (body : LeadSubmission) : DB × LeadResult :=
  let data := sanitize_submission body
  if !(validate_email data.email) then (db, LeadResult.invalidEmail)
  else if name_too_long data.name then (db, LeadResult.nameTooLong)
  else
    match db.leads.find? (fun l => l.email == data.email) with
    | some existing => (db, LeadResult.alreadyExists existing)
    | none =>
        let lead : Lead :=
          { email := str_strip (str_lower data.email),
            name :=
              match data.name with
              | some n => if n == "" then none else some (str_strip n)
              | none => none,
            source := some (data.source.getD ("Manual")),
            tags := data.tags.getD [],
            utmSource := data.utm_source, utmCampaign := data.utm_campaign,
            utmMedium := data.utm_medium, utmTerm := data.utm_term,
            utmContent := data.utm_content }
        ({ db with leads := db.leads ++ [lead] }, LeadResult.created lead)

/-! ### Helper lemmas -/

/-- A map that fixes every element of a list is the identity on it. -/
theorem map_fix_of_mem {α : Type} (l : List α) (f : α → α) (h : ∀ x ∈ l, f x = x) :
    l.map f = l := by
  have := List.map_congr_left (g := id) h
  simpa using this

/-! ### Claim theorems -/

/-- C8: the Automation Logger of the lead-intake script never propagates a
failure of its own write (the state is simply left as the write left it),
while the Automation Logger of the webhook path returns the outcome of the
underlying write unchanged, error included. -/
theorem C8_logger_error_propagation (db : DB) (entry : AutomationLog) :
    (∀ writeOk : Bool, log_automation_script db writeOk entry =
      (if writeOk then { db with logs := db.logs ++ [entry] } else db)) ∧
    log_automation_webhook db false entry =
      (db, Except.error ("automation log write failed")) ∧
    log_automation_webhook db true entry =
      ({ db with logs := db.logs ++ [entry] }, Except.ok ()) := by
  refine ⟨fun writeOk => ?_, rfl, rfl⟩
  cases writeOk <;> rfl

/-- A concrete environment with no Stripe secret, outside production but
not named development. -/
def envStagingNoSecret : Env :=
  { stripeWebhookSecret := none, environment := some ("staging") }

/-- C6 counterexample: with no secret configured and environment
`staging` (not production), Stripe signature verification returns false,
where the claim requires true in every environment other than
production. -/
theorem C6_counterexample_staging_env :
    envStagingNoSecret.stripeWebhookSecret = none ∧
    ¬ envStagingNoSecret.environment = some ("production") ∧
    verify_stripe_signature envStagingNoSecret true = false := by
  refine ⟨rfl, by decide, by decide⟩

/-- C6 amended: with no Stripe secret configured, verification succeeds
exactly when the environment is the literal `development` (so every other
non-production environment is rejected too); PayPal verification, which
consults no secret, fails exactly when the environment is production. -/
theorem C6_no_secret_verification_amended (env : Env) (constructEventOk : Bool) :
    (env.stripeWebhookSecret = none →
      (verify_stripe_signature env constructEventOk = true ↔
        env.environment = some ("development"))) ∧
    (verify_paypal_signature env = false ↔
      env.environment = some ("production")) := by
  constructor
  · intro h
    simp [verify_stripe_signature, h]
  · by_cases hc : env.environment = some ("production") <;>
      simp [verify_paypal_signature, hc]

/-- A concrete environment with no Stripe secret, in development. -/
def envDevNoSecret : Env :=
  { stripeWebhookSecret := none, environment := some ("development") }

/-- C6 amended witness at a concrete environment. -/
theorem C6_no_secret_verification_amended_witness :
    (verify_stripe_signature envDevNoSecret false = true ↔
      envDevNoSecret.environment = some ("development")) ∧
    (verify_paypal_signature envDevNoSecret = false ↔
      envDevNoSecret.environment = some ("production")) :=
  ⟨(C6_no_secret_verification_amended envDevNoSecret false).1 rfl,
   (C6_no_secret_verification_amended envDevNoSecret false).2⟩

/-- C2: fulfillment dispatches on the SKU prefix.  A COPYKIT SKU runs the
workspace path (its completed log names CopyKit Fulfillment) and marks the
order fulfilled with a timestamp; a DAILYBRIEF SKU runs the subscriber
path (its log names Briefing Fulfillment) and marks the order fulfilled;
any other SKU leaves the store entirely unchanged. -/
theorem C2_fulfillment_dispatch_on_sku
    (db : DB) (now : Nat) (order : Order) (product : Option Product) :
    (str_startswith order.sku ("COPYKIT") = true →
      (trigger_fulfillment db now order product).orders =
        db.orders.map (fun o =>
          if o.id == order.id then { o with fulfilled := true, fulfilledAt := some now } else o) ∧
      (trigger_fulfillment db now order product).logs =
        db.logs ++ [{ automationId := "A4-copykit-fulfilment",
                      automationName := "CopyKit Fulfillment",
                      status := "completed", errorMessage := none }]) ∧
    (str_startswith order.sku ("COPYKIT") = false →
     str_startswith order.sku ("DAILYBRIEF") = true →
      (trigger_fulfillment db now order product).orders =
        db.orders.map (fun o =>
          if o.id == order.id then { o with fulfilled := true, fulfilledAt := some now } else o) ∧
      (trigger_fulfillment db now order product).logs =
        db.logs ++ [{ automationId := "A4-copykit-fulfilment",
                      automationName := "Briefing Fulfillment",
                      status := "completed", errorMessage := none }]) ∧
    (str_startswith order.sku ("COPYKIT") = false →
     str_startswith order.sku ("DAILYBRIEF") = false →
      trigger_fulfillment db now order product = db) := by
  refine ⟨fun h1 => ?_, fun h1 h2 => ?_, fun h1 h2 => ?_⟩
  · constructor <;>
      simp [trigger_fulfillment, fulfill_copykit, order_update, log_automation, h1]
  · constructor <;>
      simp [trigger_fulfillment, fulfill_briefing, order_update, log_automation, h1, h2]
  · simp [trigger_fulfillment, h1, h2]

/-- A concrete paid, unfulfilled CopyKit order. -/
def orderC2 : Order :=
  { id := 1, gateway := "stripe", gatewayTransactionId := "pi_1",
    status := "paid", amountGbp := 49, buyerEmail := some ("a@b.com"),
    buyerName := none, sku := "COPYKIT-MONTHLY", fulfilled := false,
    fulfilledAt := none }

/-- A concrete store holding only `orderC2`. -/
def dbC2 : DB :=
  { orders := [orderC2], subscriptions := [], leads := [], products := [], logs := [] }

/-- C2 witness on the COPYKIT branch at a concrete store. -/
theorem C2_fulfillment_dispatch_on_sku_witness :
    (trigger_fulfillment dbC2 7 orderC2 none).orders =
      dbC2.orders.map (fun o =>
        if o.id == orderC2.id then { o with fulfilled := true, fulfilledAt := some 7 } else o) ∧
    (trigger_fulfillment dbC2 7 orderC2 none).logs =
      dbC2.logs ++ [{ automationId := "A4-copykit-fulfilment",
                      automationName := "CopyKit Fulfillment",
                      status := "completed", errorMessage := none }] :=
  (C2_fulfillment_dispatch_on_sku dbC2 7 orderC2 none).1 (by decide)

/-- C4: a refund event updates exactly the matched Order to status
refunded (all other rows and stores untouched) and is a no-op when no
Order carries the transaction id, for both the Stripe and the PayPal
handler. -/
theorem C4_refund_updates_matching_order_else_noop
    (db : DB) (charge : StripeCharge) (payment : PaypalResource) :
    (db.orders.find? (fun o => o.gatewayTransactionId == charge.payment_intent) = none →
      handle_stripe_refund db charge = db) ∧
    (∀ ord, db.orders.find? (fun o => o.gatewayTransactionId == charge.payment_intent) = some ord →
      (handle_stripe_refund db charge).orders =
        db.orders.map (fun o => if o.id == ord.id then { o with status := "refunded" } else o) ∧
      (handle_stripe_refund db charge).subscriptions = db.subscriptions ∧
      (handle_stripe_refund db charge).leads = db.leads ∧
      (handle_stripe_refund db charge).products = db.products ∧
      (handle_stripe_refund db charge).logs = db.logs) ∧
    (db.orders.find? (fun o => o.gatewayTransactionId == payment.id) = none →
      handle_paypal_refund db payment = db) ∧
    (∀ ord, db.orders.find? (fun o => o.gatewayTransactionId == payment.id) = some ord →
      (handle_paypal_refund db payment).orders =
        db.orders.map (fun o => if o.id == ord.id then { o with status := "refunded" } else o) ∧
      (handle_paypal_refund db payment).subscriptions = db.subscriptions ∧
      (handle_paypal_refund db payment).leads = db.leads ∧
      (handle_paypal_refund db payment).products = db.products ∧
      (handle_paypal_refund db payment).logs = db.logs) := by
  refine ⟨fun h => ?_, fun ord h => ?_, fun h => ?_, fun ord h => ?_⟩ <;>
    simp [handle_stripe_refund, handle_paypal_refund, h, order_update]

/-- A concrete store holding one paid order with transaction id pi_1. -/
def dbC4 : DB :=
  { orders := [orderC2], subscriptions := [], leads := [], products := [], logs := [] }

/-- C4 witness: refunding the one matching order at a concrete store. -/
theorem C4_refund_updates_matching_order_else_noop_witness :
    (handle_stripe_refund dbC4 { payment_intent := "pi_1" }).orders =
      dbC4.orders.map (fun o => if o.id == orderC2.id then { o with status := "refunded" } else o) ∧
    (handle_stripe_refund dbC4 { payment_intent := "pi_1" }).subscriptions = dbC4.subscriptions ∧
    (handle_stripe_refund dbC4 { payment_intent := "pi_1" }).leads = dbC4.leads ∧
    (handle_stripe_refund dbC4 { payment_intent := "pi_1" }).products = dbC4.products ∧
    (handle_stripe_refund dbC4 { payment_intent := "pi_1" }).logs = dbC4.logs :=
  (C4_refund_updates_matching_order_else_noop dbC4 { payment_intent := "pi_1" }
      { id := "x", payer_email := none, payer_given_name := none,
        payer_surname := none, amount_value := 0, custom_id := none,
        subscriber_email := none, start_time := 0 }).2.1 orderC2 (by decide)

/-- C5: a subscription-updated event refreshes status, period bounds and
the cancel flag of every row carrying the gateway subscription id,
touches nothing else, and is a silent no-op (state returned unchanged)
when no row matches. -/
theorem C5_subscription_update_refresh_or_noop (db : DB) (sub : StripeSubscriptionObj) :
    (handle_stripe_subscription_updated db sub).orders = db.orders ∧
    (handle_stripe_subscription_updated db sub).leads = db.leads ∧
    (handle_stripe_subscription_updated db sub).products = db.products ∧
    (handle_stripe_subscription_updated db sub).logs = db.logs ∧
    (handle_stripe_subscription_updated db sub).subscriptions =
      db.subscriptions.map (fun s =>
        if s.gatewaySubscriptionId == sub.id then
          { s with
            status := sub.status,
            currentPeriodStart := some sub.current_period_start,
            currentPeriodEnd := some sub.current_period_end,
            cancelAtPeriodEnd := sub.cancel_at_period_end }
        else s) ∧
    ((∀ s ∈ db.subscriptions, ¬ s.gatewaySubscriptionId = sub.id) →
      handle_stripe_subscription_updated db sub = db) := by
  refine ⟨rfl, rfl, rfl, rfl, rfl, fun h => ?_⟩
  cases db with
  | mk orders subs leads prods logs =>
    simp only [handle_stripe_subscription_updated, subscription_update]
    congr 1
    apply map_fix_of_mem
    intro s hs
    have hne := h s hs
    simp [hne]

/-- A concrete store with a single subscription. -/
def dbC5 : DB :=
  { orders := [], leads := [], products := [], logs := [],
    subscriptions := [{ gateway := "stripe", gatewaySubscriptionId := "sub_1",
                        customerEmail := some ("a@b.com"), sku := "DAILYBRIEF-M",
                        status := "active", currentPeriodStart := some 0,
                        currentPeriodEnd := some 10, cancelAtPeriodEnd := false,
                        cancelledAt := none }] }

/-- A concrete subscription-updated event that matches no stored row. -/
def subC5 : StripeSubscriptionObj :=
  { id := "sub_other", customer := "cus_1", status := "past_due",
    current_period_start := 5, current_period_end := 15,
    cancel_at_period_end := true, metadata_sku := none }

/-- C5 witness: the no-match case really leaves a concrete store
untouched. -/
theorem C5_subscription_update_refresh_or_noop_witness :
    handle_stripe_subscription_updated dbC5 subC5 = dbC5 :=
  (C5_subscription_update_refresh_or_noop dbC5 subC5).2.2.2.2.2 (by decide)

/-- C3: a webhook whose event type matches none of the handled types is
answered 200 with the received body and the store is returned completely
unchanged, on both gateway endpoints. -/
theorem C3_unrecognized_event_type_no_side_effect
    (env : Env) (db : DB) (now nextId : Nat) (ext : Ext)
    (req : StripeRequest) (preq : PaypalRequest) :
    (req.contentTypeJson = true →
     verify_stripe_signature env req.constructEventOk = true →
     req.event.type ∉ stripeHandledTypes →
     stripe_webhook env db now nextId ext req =
       ({ status := 200, body := RespBody.received }, db)) ∧
    (preq.contentTypeJson = true →
     verify_paypal_signature env = true →
     preq.event.event_type ∉ paypalHandledTypes →
     paypal_webhook env db now nextId preq =
       ({ status := 200, body := RespBody.received }, db)) := by
  constructor
  · intro h1 h2 h3
    simp only [stripeHandledTypes, List.mem_cons, List.not_mem_nil, or_false, not_or] at h3
    obtain ⟨n1, n2, n3, n4, n5, n6⟩ := h3
    simp [stripe_webhook, h1, h2, n1, n2, n3, n4, n5, n6]
  · intro h1 h2 h3
    simp only [paypalHandledTypes, List.mem_cons, List.not_mem_nil, or_false, not_or] at h3
    obtain ⟨n1, n2, n3, n4⟩ := h3
    simp [paypal_webhook, h1, h2, n1, n2, n3, n4]

/-- A concrete environment with a configured Stripe secret. -/
def envC3 : Env :=
  { stripeWebhookSecret := some ("whsec_1"), environment := some ("production") }

/-- Oracle results for external calls that all succeed. -/
def extOk : Ext :=
  { listLineItemsOk := Except.ok (), retrieveCustomerEmail := Except.ok (some ("a@b.com")) }

/-- An empty store. -/
def dbEmpty : DB :=
  { orders := [], subscriptions := [], leads := [], products := [], logs := [] }

/-- A concrete session payload. -/
def sessionC1 : StripeSession :=
  { id := "cs_1", payment_intent := "pi_1", amount_total := 4900,
    customer_email := some ("a@b.com"), customer_details_email := none,
    customer_details_name := none, metadata_sku := some ("COPYKIT-MONTHLY") }

/-- A concrete Stripe subscription payload. -/
def subObjC3 : StripeSubscriptionObj :=
  { id := "sub_1", customer := "cus_1", status := "active",
    current_period_start := 0, current_period_end := 10,
    cancel_at_period_end := false, metadata_sku := none }

/-- A concrete Stripe request carrying an event type the service does not
handle. -/
def reqC3 : StripeRequest :=
  { contentTypeJson := true, constructEventOk := true,
    event := { type := "payment_intent.succeeded", session := sessionC1,
               subscription := subObjC3, charge := { payment_intent := "pi_1" } } }

/-- C3 witness: a concrete unhandled Stripe event is accepted with no
state change. -/
theorem C3_unrecognized_event_type_no_side_effect_witness :
    stripe_webhook envC3 dbEmpty 0 1 extOk reqC3 =
      ({ status := 200, body := RespBody.received }, dbEmpty) :=
  (C3_unrecognized_event_type_no_side_effect envC3 dbEmpty 0 1 extOk reqC3
      { contentTypeJson := true,
        event := { event_type := "x",
                   resource := { id := "r", payer_email := none,
                                 payer_given_name := none, payer_surname := none,
                                 amount_value := 0, custom_id := none,
                                 subscriber_email := none, start_time := 0 } } }).1
    rfl rfl (by decide)

/-- The number of order rows is preserved by fulfillment dispatch. -/
theorem trigger_fulfillment_orders_length
    (db : DB) (now : Nat) (o : Order) (p : Option Product) :
    (trigger_fulfillment db now o p).orders.length = db.orders.length := by
  unfold trigger_fulfillment fulfill_copykit fulfill_briefing order_update log_automation
  split
  · simp
  · split <;> simp

/-- C1: a checkout-completed event for a transaction id not yet stored,
with the gateway SDK calls succeeding, creates exactly one new Order:
gateway stripe, status paid, unfulfilled, amount the minor-unit total
divided by 100, SKU from the event metadata defaulting to UNKNOWN; an
amount total of 4900 yields 49. -/
theorem C1_stripe_checkout_creates_order
    (db : DB) (now nextId : Nat) (ext : Ext) (session : StripeSession)
    (hext : ext.listLineItemsOk = Except.ok ())
    (hfresh : ∀ o ∈ db.orders,
      ¬(o.gateway = "stripe" ∧ o.gatewayTransactionId = session.payment_intent)) :
    ∃ order : Order,
      (handle_stripe_checkout_completed db now nextId ext session).2 = Except.ok order ∧
      order.gateway = "stripe" ∧
      order.status = "paid" ∧
      order.fulfilled = false ∧
      order.amountGbp = (session.amount_total : ℚ) / 100 ∧
      order.sku = session.metadata_sku.getD ("UNKNOWN") ∧
      order.gatewayTransactionId = session.payment_intent ∧
      (handle_stripe_checkout_completed db now nextId ext session).1.orders.length =
        db.orders.length + 1 ∧
      (session.amount_total = 4900 → order.amountGbp = 49) := by
  have hany : db.orders.any (fun p =>
      p.gateway == "stripe" && p.gatewayTransactionId == session.payment_intent) = false := by
    rw [List.any_eq_false]
    intro o ho
    have := hfresh o ho
    simp only [Bool.and_eq_true, beq_iff_eq]
    tauto
  refine ⟨{ id := nextId, gateway := "stripe",
            gatewayTransactionId := session.payment_intent, status := "paid",
            amountGbp := (session.amount_total : ℚ) / 100,
            buyerEmail := orFalsy session.customer_email session.customer_details_email,
            buyerName := session.customer_details_name,
            sku := session.metadata_sku.getD ("UNKNOWN"),
            fulfilled := false, fulfilledAt := none }, ?_, rfl, rfl, rfl, rfl, rfl, rfl, ?_, ?_⟩
  · simp [handle_stripe_checkout_completed, hext, order_create, hany]
  · simp only [handle_stripe_checkout_completed, hext, order_create, hany,
      Bool.false_eq_true, if_false, log_automation]
    split
    · split
      · rw [trigger_fulfillment_orders_length]
        simp
      · simp
    · simp
  · intro h
    rw [h]
    norm_num

/-- C1 witness at a concrete fresh event with amount total 4900. -/
theorem C1_stripe_checkout_creates_order_witness :
    ∃ order : Order,
      (handle_stripe_checkout_completed dbEmpty 0 1 extOk sessionC1).2 = Except.ok order ∧
      order.gateway = "stripe" ∧
      order.status = "paid" ∧
      order.fulfilled = false ∧
      order.amountGbp = (sessionC1.amount_total : ℚ) / 100 ∧
      order.sku = sessionC1.metadata_sku.getD ("UNKNOWN") ∧
      order.gatewayTransactionId = sessionC1.payment_intent ∧
      (handle_stripe_checkout_completed dbEmpty 0 1 extOk sessionC1).1.orders.length =
        dbEmpty.orders.length + 1 ∧
      (sessionC1.amount_total = 4900 → order.amountGbp = 49) :=
  C1_stripe_checkout_creates_order dbEmpty 0 1 extOk sessionC1 rfl (by simp [dbEmpty])

/-- When checkout handling ends in an error, the resulting store contains
a failed automation log row naming the checkout automation and carrying
the error text. -/
theorem checkout_error_writes_failed_log
    (db : DB) (now nextId : Nat) (ext : Ext) (session : StripeSession) (e : String)
    (h : (handle_stripe_checkout_completed db now nextId ext session).2 = Except.error e) :
    ∃ l ∈ (handle_stripe_checkout_completed db now nextId ext session).1.logs,
      l.automationId = "A2-checkout-webhooks" ∧ l.status = "failed" ∧
      l.errorMessage = some e := by
  cases hext : ext.listLineItemsOk with
  | error e0 =>
    simp only [handle_stripe_checkout_completed, hext] at h ⊢
    obtain rfl : e0 = e := by simpa using h
    refine ⟨{ automationId := "A2-checkout-webhooks",
              automationName := "Stripe Checkout Completed",
              status := "failed", errorMessage := some e0 }, ?_, rfl, rfl, rfl⟩
    simp [log_automation]
  | ok u =>
    by_cases hany : db.orders.any (fun p =>
        p.gateway == "stripe" && p.gatewayTransactionId == session.payment_intent) = true
    · simp only [handle_stripe_checkout_completed, hext, order_create, hany, if_true] at h ⊢
      obtain rfl :
          ("Unique constraint failed on Order gateway transaction id" : String) = e := by
        simpa using h
      refine ⟨{ automationId := "A2-checkout-webhooks",
                automationName := "Stripe Checkout Completed",
                status := "failed",
                errorMessage :=
                  some ("Unique constraint failed on Order gateway transaction id") },
              ?_, rfl, rfl, rfl⟩
      simp [log_automation]
    · rw [Bool.not_eq_true] at hany
      simp only [handle_stripe_checkout_completed, hext, order_create, hany,
        Bool.false_eq_true, if_false] at h
      exact absurd h (by simp)

/-- C7: when checkout processing fails, the webhook answers 500 with the
error text and the store after the request contains a failed automation
log row for the checkout automation carrying that text. -/
theorem C7_checkout_failure_logs_failed_and_500
    (env : Env) (db : DB) (now nextId : Nat) (ext : Ext) (req : StripeRequest) (e : String)
    (h1 : req.contentTypeJson = true)
    (h2 : verify_stripe_signature env req.constructEventOk = true)
    (h3 : req.event.type = "checkout.session.completed")
    (h4 : (handle_stripe_checkout_completed db now nextId ext req.event.session).2 =
      Except.error e) :
    (stripe_webhook env db now nextId ext req).1 =
      { status := 500, body := RespBody.error e } ∧
    ∃ l ∈ (stripe_webhook env db now nextId ext req).2.logs,
      l.automationId = "A2-checkout-webhooks" ∧ l.status = "failed" ∧
      l.errorMessage = some e := by
  have hlog := checkout_error_writes_failed_log db now nextId ext req.event.session e h4
  rcases hres : handle_stripe_checkout_completed db now nextId ext req.event.session
    with ⟨db1, r⟩
  rw [hres] at h4 hlog
  simp only at h4
  subst h4
  constructor
  · simp [stripe_webhook, h1, h2, h3, hres]
  · simpa [stripe_webhook, h1, h2, h3, hres] using hlog

/-- A concrete store already holding the order for transaction pi_1. -/
def dbC7 : DB :=
  { orders := [orderC2], subscriptions := [], leads := [], products := [], logs := [] }

/-- A concrete replay of the checkout event for the already-stored
transaction. -/
def reqC7 : StripeRequest :=
  { contentTypeJson := true, constructEventOk := true,
    event := { type := "checkout.session.completed", session := sessionC1,
               subscription := subObjC3, charge := { payment_intent := "pi_1" } } }

/-- C7 witness: re-delivering the checkout event for a stored transaction
makes the create raise the uniqueness violation, which surfaces as a 500
with a failed log row. -/
theorem C7_checkout_failure_logs_failed_and_500_witness :
    (stripe_webhook envC3 dbC7 0 2 extOk reqC7).1 =
      { status := 500,
        body := RespBody.error ("Unique constraint failed on Order gateway transaction id") } ∧
    ∃ l ∈ (stripe_webhook envC3 dbC7 0 2 extOk reqC7).2.logs,
      l.automationId = "A2-checkout-webhooks" ∧ l.status = "failed" ∧
      l.errorMessage = some ("Unique constraint failed on Order gateway transaction id") :=
  C7_checkout_failure_logs_failed_and_500 envC3 dbC7 0 2 extOk reqC7
    ("Unique constraint failed on Order gateway transaction id")
    rfl rfl rfl rfl

/-- A stored lead with one tag. -/
def leadC9 : Lead :=
  { email := "a@b.com", name := none, source := some ("Manual"),
    tags := ["interest"], utmSource := none, utmCampaign := none,
    utmMedium := none, utmTerm := none, utmContent := none }

/-- A store holding only `leadC9`. -/
def dbC9 : DB :=
  { orders := [], subscriptions := [], leads := [leadC9], products := [], logs := [] }

/-- A duplicate submission of the same email carrying a new tag. -/
def subC9 : LeadSubmission :=
  { email := "a@b.com", name := none, source := none,
    tags := some (["newsletter"]), utm_source := none, utm_campaign := none,
    utm_medium := none, utm_term := none, utm_content := none }

/-- C9 counterexample: submitting an existing email with a new tag through
the `POST /api/leads` endpoint leaves the store unchanged, so the stored
tags are not the union of previous and submitted tags. -/
theorem C9_counterexample_api_leads_no_merge :
    (create_lead dbC9 subC9).1 = dbC9 ∧
    ("newsletter" ∈ subC9.tags.getD []) ∧
    (create_lead dbC9 subC9).1.leads = [leadC9] ∧
    leadC9.email = subC9.email ∧
    ¬ ("newsletter" ∈ leadC9.tags) := by
  decide

/-- C9 amended: only the lead-intake script merges tags.  On an existing
email, `upsert_lead` keeps the row count and gives every row with that
email exactly the set union of previous and submitted tags, while
`create_lead` (the `POST /api/leads` endpoint) returns the existing row
and leaves the store unchanged, performing no merge; neither path creates
a second row. -/
theorem C9_lead_upsert_amended (db : DB) (ld : LeadSubmission) (existing : Lead) :
    (db.leads.find? (fun l => l.email == ld.email) = some existing →
      (upsert_lead db ld).leads.length = db.leads.length ∧
      ∀ l ∈ (upsert_lead db ld).leads, l.email = ld.email →
        ∀ t : String, (t ∈ l.tags ↔ t ∈ existing.tags ∨ t ∈ ld.tags.getD [])) ∧
    (validate_email (sanitize_submission ld).email = true →
     name_too_long (sanitize_submission ld).name = false →
     db.leads.find? (fun l => l.email == (sanitize_submission ld).email) = some existing →
      create_lead db ld = (db, LeadResult.alreadyExists existing)) := by
  constructor
  · intro hfind
    unfold upsert_lead
    rw [hfind]
    refine ⟨by simp, ?_⟩
    intro l hl hemail t
    simp only [List.mem_map] at hl
    obtain ⟨l0, hl0, rfl⟩ := hl
    by_cases hm : (l0.email == ld.email) = true
    · simp [hm, List.mem_dedup, List.mem_append]
    · simp only [Bool.not_eq_true] at hm
      simp only [hm, Bool.false_eq_true, if_false] at hemail
      exact absurd hemail (by simpa using hm)
  · intro hv hn hfind
    simp [create_lead, hv, hn, hfind]

/-- The row `upsert_lead` produces for the duplicate submission above. -/
def leadC9upd : Lead :=
  { email := "a@b.com", name := none, source := some ("Manual"),
    tags := ["interest", "newsletter"], utmSource := none, utmCampaign := none,
    utmMedium := none, utmTerm := none, utmContent := none }

/-- C9 amended witness: at the concrete store, the merged row carries the
new tag exactly as the union describes. -/
theorem C9_lead_upsert_amended_witness :
    ("newsletter" ∈ leadC9upd.tags ↔
      "newsletter" ∈ leadC9.tags ∨ "newsletter" ∈ subC9.tags.getD []) :=
  ((C9_lead_upsert_amended dbC9 subC9 leadC9).1 (by decide)).2
    leadC9upd (by decide) (by decide) ("newsletter")

/-! ### Sanitizer lemmas -/

/-- Character replacement distributes over append. -/
theorem replaceChar_append (old : Char) (r : List Char) (xs ys : List Char) :
    replaceChar old r (xs ++ ys) = replaceChar old r xs ++ replaceChar old r ys := by
  simp [replaceChar]

/-- The sanitizer pass distributes over append. -/
theorem sanitize_chars_append (xs ys : List Char) :
    sanitize_chars (xs ++ ys) = sanitize_chars xs ++ sanitize_chars ys := by
  simp [sanitize_chars, replaceChar_append]

/-- The sanitizer pass processes one character at a time. -/
theorem sanitize_chars_cons (a : Char) (s : List Char) :
    sanitize_chars (a :: s) = sanitize_chars [a] ++ sanitize_chars s := by
  have h : a :: s = [a] ++ s := rfl
  rw [h, sanitize_chars_append]

/-- A character outside the four rewritten ones passes through the
sanitizer unchanged. -/
theorem sanitize_chars_single_not_dangerous (a : Char) (h : dangerous a = false) :
    sanitize_chars [a] = [a] := by
  simp only [dangerous, Bool.or_eq_false_iff] at h
  obtain ⟨⟨⟨h1, h2⟩, h3⟩, h4⟩ := h
  rw [beq_eq_false_iff_ne] at h1 h2 h3 h4
  simp [sanitize_chars, replaceChar, h1, h2, h3, h4]

/-- No output character of the sanitizer pass is dangerous. -/
theorem sanitize_chars_no_dangerous (s : List Char) :
    ∀ c ∈ sanitize_chars s, dangerous c = false := by
  induction s with
  | nil =>
    intro c hc
    simp [sanitize_chars, replaceChar] at hc
  | cons a t ih =>
    intro c hc
    rw [sanitize_chars_cons] at hc
    rcases List.mem_append.mp hc with h | h
    · by_cases hd : dangerous a = true
      · simp only [dangerous, Bool.or_eq_true, beq_iff_eq] at hd
        rcases hd with (((rfl | rfl) | rfl) | rfl)
        · exact (by decide : ∀ c ∈ sanitize_chars [ltChar], dangerous c = false) c h
        · exact (by decide : ∀ c ∈ sanitize_chars [gtChar], dangerous c = false) c h
        · exact (by decide : ∀ c ∈ sanitize_chars [quotChar], dangerous c = false) c h
        · exact (by decide : ∀ c ∈ sanitize_chars [aposChar], dangerous c = false) c h
      · rw [Bool.not_eq_true] at hd
        rw [sanitize_chars_single_not_dangerous a hd] at h
        simp only [List.mem_singleton] at h
        subst h
        exact hd
    · exact ih c h

/-- The sanitizer pass is idempotent on character lists. -/
theorem sanitize_chars_idem (s : List Char) :
    sanitize_chars (sanitize_chars s) = sanitize_chars s := by
  induction s with
  | nil => rfl
  | cons a t ih =>
    have hsingle : sanitize_chars (sanitize_chars [a]) = sanitize_chars [a] := by
      by_cases hd : dangerous a = true
      · simp only [dangerous, Bool.or_eq_true, beq_iff_eq] at hd
        rcases hd with (((rfl | rfl) | rfl) | rfl) <;> rfl
      · rw [Bool.not_eq_true] at hd
        rw [sanitize_chars_single_not_dangerous a hd,
          sanitize_chars_single_not_dangerous a hd]
    rw [sanitize_chars_cons, sanitize_chars_append, ih, hsingle]

/-- The string sanitizer is idempotent. -/
theorem sanitize_string_idem (s : String) :
    sanitize_string (sanitize_string s) = sanitize_string s := by
  unfold sanitize_string
  rw [show (String.mk (sanitize_chars s.data)).data = sanitize_chars s.data from rfl,
    sanitize_chars_idem]

mutual
/-- The sanitizer is idempotent on values. -/
theorem sanitize_input_idem : ∀ v : PyVal,
    sanitize_input (sanitize_input v) = sanitize_input v
  | .str s => by
      simp only [sanitize_input]
      rw [sanitize_string_idem]
  | .dict d => by
      simp only [sanitize_input]
      rw [sanitize_input_dict_idem d]
  | .list l => by
      simp only [sanitize_input]
      rw [sanitize_input_list_idem l]
  | .other n => rfl

/-- The sanitizer is idempotent on dicts. -/
theorem sanitize_input_dict_idem : ∀ d : PyDict,
    sanitize_input_dict (sanitize_input_dict d) = sanitize_input_dict d
  | .nil => rfl
  | .cons k v d => by
      simp only [sanitize_input_dict]
      rw [sanitize_input_idem v, sanitize_input_dict_idem d]

/-- The sanitizer is idempotent on lists. -/
theorem sanitize_input_list_idem : ∀ l : PyList,
    sanitize_input_list (sanitize_input_list l) = sanitize_input_list l
  | .nil => rfl
  | .cons v l => by
      simp only [sanitize_input_list]
      rw [sanitize_input_idem v, sanitize_input_list_idem l]
end

mutual
/-- Every value string of a sanitized value is free of dangerous
characters. -/
theorem valueStrings_clean : ∀ v : PyVal,
    ∀ s ∈ valueStrings (sanitize_input v), ∀ c ∈ s.data, dangerous c = false
  | .str s0 => by
      intro s hs c hc
      simp only [sanitize_input, valueStrings, List.mem_singleton] at hs
      subst hs
      exact sanitize_chars_no_dangerous s0.data c hc
  | .dict d => by
      intro s hs c hc
      simp only [sanitize_input, valueStrings] at hs
      exact valueStringsDict_clean d s hs c hc
  | .list l => by
      intro s hs c hc
      simp only [sanitize_input, valueStrings] at hs
      exact valueStringsList_clean l s hs c hc
  | .other n => by
      intro s hs
      simp [sanitize_input, valueStrings] at hs

/-- Every value string of a sanitized dict is free of dangerous
characters. -/
theorem valueStringsDict_clean : ∀ d : PyDict,
    ∀ s ∈ valueStringsDict (sanitize_input_dict d), ∀ c ∈ s.data, dangerous c = false
  | .nil => by
      intro s hs
      simp [sanitize_input_dict, valueStringsDict] at hs
  | .cons k v d => by
      intro s hs c hc
      simp only [sanitize_input_dict, valueStringsDict, List.mem_append] at hs
      rcases hs with h | h
      · exact valueStrings_clean v s h c hc
      · exact valueStringsDict_clean d s h c hc

/-- Every value string of a sanitized list is free of dangerous
characters. -/
theorem valueStringsList_clean : ∀ l : PyList,
    ∀ s ∈ valueStringsList (sanitize_input_list l), ∀ c ∈ s.data, dangerous c = false
  | .nil => by
      intro s hs
      simp [sanitize_input_list, valueStringsList] at hs
  | .cons v l => by
      intro s hs c hc
      simp only [sanitize_input_list, valueStringsList, List.mem_append] at hs
      rcases hs with h | h
      · exact valueStrings_clean v s h c hc
      · exact valueStringsList_clean l s h c hc
end

/-- A dict whose key is a bare less-than sign. -/
def pyDictBadKey : PyVal :=
  PyVal.dict (PyDict.cons (String.mk [ltChar]) (PyVal.str ("x")) PyDict.nil)

/-- C10 counterexample: the sanitizer leaves dict keys untouched, so the
output of `sanitize_input` can contain a string holding a less-than sign
and the claim over all strings of the output is false. -/
theorem C10_counterexample_dict_key_unsanitized :
    ¬ (∀ v : PyVal,
        sanitize_input (sanitize_input v) = sanitize_input v ∧
        ∀ s ∈ allStrings (sanitize_input v), ∀ c ∈ s.data, dangerous c = false) := by
  intro h
  have h2 := (h pyDictBadKey).2 (String.mk [ltChar]) (by decide) ltChar (by decide)
  exact absurd h2 (by decide)

/-- C10 amended: the sanitizer is idempotent, and every string it actually
rewrites (string leaves reached through dict values and list elements,
dict keys excluded) is free of the characters it removes. -/
theorem C10_sanitize_idempotent_and_value_strings_clean (v : PyVal) :
    sanitize_input (sanitize_input v) = sanitize_input v ∧
    ∀ s ∈ valueStrings (sanitize_input v), ∀ c ∈ s.data, dangerous c = false :=
  ⟨sanitize_input_idem v, valueStrings_clean v⟩

/-- A bare less-than sign as a string value. -/
def pyStrLt : PyVal := PyVal.str (String.mk [ltChar])

/-- C10 amended witness at a concrete value: sanitizing the less-than
string is idempotent and its output characters are clean. -/
theorem C10_sanitize_idempotent_and_value_strings_clean_witness :
    sanitize_input (sanitize_input pyStrLt) = sanitize_input pyStrLt ∧
    dangerous (Char.ofNat 38) = false :=
  ⟨(C10_sanitize_idempotent_and_value_strings_clean pyStrLt).1,
   (C10_sanitize_idempotent_and_value_strings_clean pyStrLt).2
     (String.mk (("&lt;").data)) (by decide) (Char.ofNat 38) (by decide)⟩

end RevenueEngine
